import Mathlib

/-!
Shallow embedding of the AQI-Predictor frontend component
(`src/frontend/app/page.js`, latest revision: dual-endpoint
`/api/forecast` + `/api/status` client).

The component issues two concurrent GET requests, merges the results into
local display state via `Promise.all`, and renders one of three views
(loading, error, ready).  We model:

  * the JSON payload shapes of both endpoints (optional fields model
    absent/`undefined` JS properties);
  * each fetch function as a transformation of the settled HTTP outcome
    into a JS promise result (`Except String payload`, an `error` being a
    thrown exception carrying its message);
  * `Promise.all` over two settled promises, including its settle *time*
    (the joint wait resolves at the later fulfilment, but a rejection
    short-circuits at the first rejection time);
  * the state-update sequence of `loadAllData` (the `useState` flags:
    `todayAqi`, `forecast`, `loading`, `error`, `lastUpdated`), both its
    final state and the trace of intermediate flag states;
  * the rendering logic as a pure function of the component state,
    parameterised by the locale formatter `formatDate` and by the
    render-time local date string produced by
    `new Date().toLocaleDateString('en-CA')`.

JS truthiness on the string-valued fields (`errorData.detail || fallback`,
`if (error)`, `lastUpdated && ...`) is modelled explicitly: an absent
(`none`) or empty string is falsy, every other string is truthy.
-/

deriving instance DecidableEq for Except

namespace AqiPredictor

/-- `today` object of a `/api/forecast` body: `{ aqi: number, date: string }`. -/
structure TodayReading where
  aqi : Int
  date : String
deriving DecidableEq, Repr

/-- One entry of the forecast array: `{ date: string, predicted_aqi: number }`. -/
structure ForecastDay where
  date : String
  predicted_aqi : Int
deriving DecidableEq, Repr

/-- A parsed `/api/forecast` JSON body.  Each field is optional: a JS
property access on a parsed object yields `undefined` (`none`) when the
property is absent.  `detail` is the field consulted on non-success
responses. -/
structure AqiBody where
  today : Option TodayReading := none
  forecast : Option (List ForecastDay) := none
  detail : Option String := none
deriving DecidableEq, Repr

/-- A parsed `/api/status` JSON body. -/
structure StatusBody where
  model_last_updated_utc : Option String := none
  detail : Option String := none
deriving DecidableEq, Repr

/-- The settled outcome of a `fetch` call to one endpoint, as observed by
the fetch helper: either the fetch itself rejected (network/transport
failure, carrying the exception message), or a response arrived with an
`ok` flag and a body whose JSON parse either succeeded (`Except.ok`) or
threw (`Except.error` with the parse exception's message). -/
inductive FetchOutcome (α : Type) where
  | netFailure (msg : String)
  | response (ok : Bool) (body : Except String α)
deriving DecidableEq, Repr

/-- JS `x || fallback` on an optional string `x`: the fallback is used
when `x` is `undefined`/`null` or the empty string (the only falsy
string). -/
def jsOrElse (x : Option String) (fallback : String) : String :=
  match x with
  | some s => if s = "" then fallback else s
  | none => fallback

/-- `fetchAqiData` from `page.js`: on a non-ok response it parses the body
and throws `Error(errorData.detail || 'Failed to fetch AQI forecast.')`
(a body-parse failure in that step propagates as the thrown exception);
on an ok response it returns the parsed body (a parse failure again
propagating). -/
def fetchAqiData (f : FetchOutcome AqiBody) : Except String AqiBody :=
  match f with
  | .netFailure m => .error m
  | .response ok body =>
    if ok then
      body
    else
      match body with
      | .error m => .error m
      | .ok errorData => .error (jsOrElse errorData.detail "Failed to fetch AQI forecast.")

/-- `fetchStatusData` from `page.js`, identical in structure to
`fetchAqiData` with the status fallback message. -/
def fetchStatusData (f : FetchOutcome StatusBody) : Except String StatusBody :=
  match f with
  | .netFailure m => .error m
  | .response ok body =>
    if ok then
      body
    else
      match body with
      | .error m => .error m
      | .ok errorData => .error (jsOrElse errorData.detail "Failed to fetch API status.")

/-- A settled promise: the (abstract, discrete) time at which it settled
and its result — fulfilled with a value, or rejected with the thrown
exception's message. -/
structure Settled (α : Type) where
  time : Nat
  result : Except String α
deriving DecidableEq, Repr

/-- `Promise.all [p, q]` over two settled promises.  If both fulfil, it
fulfils with the pair at the later of the two settle times; if exactly one
rejects, it rejects at that promise's settle time (without waiting for the
other); if both reject, it rejects with the rejection that settles first
(the first array element winning a tie). -/
def promiseAll2 {α β : Type} (p : Settled α) (q : Settled β) : Settled (α × β) :=
  match p.result, q.result with
  | .ok a, .ok b => ⟨max p.time q.time, .ok (a, b)⟩
  | .error m, .ok _ => ⟨p.time, .error m⟩
  | .ok _, .error m => ⟨q.time, .error m⟩
  | .error m₁, .error m₂ => if p.time ≤ q.time then ⟨p.time, .error m₁⟩ else ⟨q.time, .error m₂⟩

/-- The component's `useState` variables. -/
structure ComponentState where
  todayAqi : Option TodayReading
  forecast : Option (List ForecastDay)
  loading : Bool
  error : Option String
  lastUpdated : Option String
deriving DecidableEq, Repr

/-- The state at mount: `useState(null)` for the data fields and the error,
`useState(true)` for `loading`. -/
def initialState : ComponentState :=
  { todayAqi := none, forecast := none, loading := true, error := none, lastUpdated := none }

/-- The settled promise produced by `fetchAqiData` applied to the settled
underlying fetch: same settle time, transformed result. -/
def settledAqi (t : Nat) (f : FetchOutcome AqiBody) : Settled AqiBody :=
  ⟨t, fetchAqiData f⟩

/-- The settled promise produced by `fetchStatusData`. -/
def settledStatus (t : Nat) (f : FetchOutcome StatusBody) : Settled StatusBody :=
  ⟨t, fetchStatusData f⟩

/-- The trace of `useState` flag states produced by one run of
`loadAllData`, starting from `initialState`.  On the success path the
`try` block sets `todayAqi`, `forecast` and `lastUpdated` in that order,
then `finally` clears `loading`; on the failure path `catch` sets `error`
to the caught exception's message while `loading` is still `true`, then
`finally` clears `loading`. -/
def loadTrace (p : Settled AqiBody) (q : Settled StatusBody) : List ComponentState :=
  match (promiseAll2 p q).result with
  | .ok (aqiData, statusData) =>
    let s₁ := { initialState with todayAqi := aqiData.today }
    let s₂ := { s₁ with forecast := aqiData.forecast }
    let s₃ := { s₂ with lastUpdated := statusData.model_last_updated_utc }
    let s₄ := { s₃ with loading := false }
    [initialState, s₁, s₂, s₃, s₄]
  | .error m =>
    let s₁ := { initialState with error := some m }
    let s₂ := { s₁ with loading := false }
    [initialState, s₁, s₂]

/-- The component state after `loadAllData` has completed (success or
failure), i.e. the last state of the trace, written out directly. -/
def loadAllData (p : Settled AqiBody) (q : Settled StatusBody) : ComponentState :=
  match (promiseAll2 p q).result with
  | .ok (aqiData, statusData) =>
    { initialState with
        todayAqi := aqiData.today
        forecast := aqiData.forecast
        lastUpdated := statusData.model_last_updated_utc
        loading := false }
  | .error m =>
    { initialState with error := some m, loading := false }

/-- The time at which the continuation of `Promise.all` resumes — the
moment the `finally` clause runs and the loading phase ends. -/
def loadingEndsAt (p : Settled AqiBody) (q : Settled StatusBody) : Nat :=
  (promiseAll2 p q).time

/-- Truthiness of an optional JS string: `undefined`/`null` and the empty
string are falsy. -/
def truthy (x : Option String) : Bool :=
  match x with
  | some s => s != ""
  | none => false

/-- The rendered output, abstracted to its data content: the loading
indicator, the error view with its interpolated message, or the ready
view with the optional formatted last-updated label, the optional
today-AQI block (numeric value and label text) and the forecast rows
(each a date string and an AQI string). -/
inductive RenderedView where
  | loadingView
  | errorView (message : String)
  | readyView (lastUpdatedLabel : Option String) (todayBlock : Option (Int × String))
      (forecastRows : List (String × String))
deriving DecidableEq, Repr

/-- The ready-view branch of the render: the last-updated label is emitted
only when `lastUpdated` is truthy (showing `formatDate` of it), the
today block only when `todayAqi` is non-null (its label interpolating the
render-time local date, not `today.date`), and the forecast rows are
`forecast.map` in order when `forecast` is non-null, nothing otherwise. -/
def renderReady (fmt : String → String) (currentDate : String) (s : ComponentState) :
    RenderedView :=
  RenderedView.readyView
    (match s.lastUpdated with
      | some u => if u = "" then none else some (fmt u)
      | none => none)
    (s.todayAqi.map (fun t => (t.aqi, "Today's AQI (" ++ currentDate ++ ")")))
    (match s.forecast with
      | some l => l.map (fun day => (day.date, toString day.predicted_aqi ++ " AQI"))
      | none => [])

/-- The component's render function: `if (loading)` shows the loading
view; otherwise `if (error)` (JS truthiness — a null or empty message
falls through) shows the error view; otherwise the ready view. -/
def render (fmt : String → String) (currentDate : String) (s : ComponentState) :
    RenderedView :=
  if s.loading then
    RenderedView.loadingView
  else
    match s.error with
    | some m => if m = "" then renderReady fmt currentDate s else RenderedView.errorView m
    | none => renderReady fmt currentDate s

/-- Discriminator: the rendered output is the loading view. -/
def RenderedView.isLoadingV : RenderedView → Bool
  | .loadingView => true
  | _ => false

/-- Discriminator: the rendered output is the error view. -/
def RenderedView.isErrorV : RenderedView → Bool
  | .errorView _ => true
  | _ => false

/-- Discriminator: the rendered output is the ready view. -/
def RenderedView.isReadyV : RenderedView → Bool
  | .readyView _ _ _ => true
  | _ => false

/-- The today-AQI block of a rendered view (`none` outside the ready view). -/
def RenderedView.todayBlockOf : RenderedView → Option (Int × String)
  | .readyView _ tb _ => tb
  | _ => none

/-- The forecast rows of a rendered view (`[]` outside the ready view). -/
def RenderedView.forecastRowsOf : RenderedView → List (String × String)
  | .readyView _ _ rows => rows
  | _ => []

/-- The forecast array of the worked example in the specification. -/
def sampleForecastList : List ForecastDay :=
  [⟨"2025-08-18", 150⟩, ⟨"2025-08-19", 135⟩, ⟨"2025-08-20", 120⟩]

/-- The `/api/forecast` body of the worked example in the specification. -/
def sampleAqiBody : AqiBody :=
  { today := some ⟨142, "2025-08-17"⟩, forecast := some sampleForecastList }

/-- The `/api/status` body of the worked example in the specification. -/
def sampleStatusBody : StatusBody :=
  { model_last_updated_utc := some "2025-08-17T22:30:00Z" }

/-- C1: for every valid forecast/status payload pair (both responses HTTP-ok
with well-formed JSON bodies), the view transitions from the loading view
rendered at mount to the ready view, whose forecast rows are exactly the
supplied forecast array mapped in order — each row the day's `date` and its
`predicted_aqi` with the literal suffix " AQI" — with no client-side
re-sorting, duplication or dropping. -/
theorem valid_pair_renders_forecast_in_order (fmt : String → String)
    (currentDate : String) (ta ts : Nat) (today : Option TodayReading)
    (fl : List ForecastDay) (da lu ds : Option String) :
    render fmt currentDate initialState = RenderedView.loadingView ∧
    render fmt currentDate
        (loadAllData (settledAqi ta (.response true (.ok ⟨today, some fl, da⟩)))
          (settledStatus ts (.response true (.ok ⟨lu, ds⟩)))) =
      RenderedView.readyView
        (match lu with
          | some u => if u = "" then none else some (fmt u)
          | none => none)
        (today.map (fun t => (t.aqi, "Today's AQI (" ++ currentDate ++ ")")))
        (fl.map (fun day => (day.date, toString day.predicted_aqi ++ " AQI"))) :=
  ⟨rfl, rfl⟩

/-- C2 counterexample: with the forecast request rejecting at time 1 and the
status request fulfilling at time 5, `Promise.all` rejects at time 1 without
waiting, so the loading phase ends strictly before the slower request has
settled — refuting the claim that the merge always waits on both. -/
theorem loading_can_end_before_both_settle :
    loadingEndsAt (settledAqi 1 (.netFailure "network request failed"))
        (settledStatus 5 (.response true (.ok sampleStatusBody))) = 1 ∧
    loadingEndsAt (settledAqi 1 (.netFailure "network request failed"))
        (settledStatus 5 (.response true (.ok sampleStatusBody))) <
      (settledStatus 5 (.response true (.ok sampleStatusBody))).time :=
  ⟨rfl, by decide⟩

/-- C2 (amended): the joint wait holds on the all-success path — when both
requests fulfil, the merging continuation resumes exactly at the later of
the two settle times — but a rejection short-circuits: `Promise.all` rejects
at the rejecting request's settle time without waiting for the other, so on
a failure the loading phase may end before the slower request settles. -/
theorem loading_ends_with_slower_only_on_success (p : Settled AqiBody)
    (q : Settled StatusBody) :
    (∀ a b, p.result = .ok a → q.result = .ok b →
      loadingEndsAt p q = max p.time q.time) ∧
    (∀ m b, p.result = .error m → q.result = .ok b → loadingEndsAt p q = p.time) ∧
    (∀ a m, p.result = .ok a → q.result = .error m → loadingEndsAt p q = q.time) := by
  refine ⟨?_, ?_, ?_⟩ <;> intro x y hp hq <;> simp [loadingEndsAt, promiseAll2, hp, hq]

/-- Witness for the amended C2 theorem: with both requests fulfilling, at
times 3 and 7, the continuation resumes at time `max 3 7 = 7`. -/
theorem loading_ends_with_slower_witness :
    loadingEndsAt (settledAqi 3 (.response true (.ok sampleAqiBody)))
        (settledStatus 7 (.response true (.ok sampleStatusBody))) = max 3 7 :=
  (loading_ends_with_slower_only_on_success _ _).1 sampleAqiBody sampleStatusBody rfl rfl

/-- C3 counterexample: a non-ok `/api/status` response whose body fails to
parse as JSON makes `response.json()` throw inside the error branch, so the
rendered message is the parse exception's text, not the fixed fallback
"Failed to fetch API status." that the claim requires. -/
theorem unparseable_status_body_shows_parse_message :
    render id "2025-08-17"
        (loadAllData (settledAqi 1 (.response true (.ok sampleAqiBody)))
          (settledStatus 2 (.response false (.error "Unexpected end of JSON input")))) =
      RenderedView.errorView "Unexpected end of JSON input" ∧
    "Unexpected end of JSON input" ≠ "Failed to fetch API status." :=
  ⟨by decide, by decide⟩

/-- C3 (amended): a non-ok response whose body cannot be parsed as JSON (the
parse exception carrying a nonempty message) puts the view in the error
phase showing the parse exception's message — for either endpoint, the
other request succeeding — and no forecast content is rendered; the fixed
fallback naming the failing fetch appears only when the body parses but
carries no truthy `detail`. -/
theorem unparseable_error_body_propagates_message (fmt : String → String)
    (cd : String) (ta ts : Nat) (ab : AqiBody) (sb : StatusBody) (m : String)
    (hm : m ≠ "") :
    (render fmt cd (loadAllData (settledAqi ta (.response true (.ok ab)))
        (settledStatus ts (.response false (.error m)))) =
      RenderedView.errorView m ∧
     (loadAllData (settledAqi ta (.response true (.ok ab)))
        (settledStatus ts (.response false (.error m)))).forecast = none) ∧
    (render fmt cd (loadAllData (settledAqi ta (.response false (.error m)))
        (settledStatus ts (.response true (.ok sb)))) =
      RenderedView.errorView m ∧
     (loadAllData (settledAqi ta (.response false (.error m)))
        (settledStatus ts (.response true (.ok sb)))).forecast = none) := by
  refine ⟨⟨?_, rfl⟩, ⟨?_, rfl⟩⟩ <;>
    simp [render, loadAllData, promiseAll2, settledAqi, settledStatus,
      fetchAqiData, fetchStatusData, initialState, hm]

/-- Witness for the amended C3 theorem at a concrete unparseable-body
failure of each endpoint. -/
theorem unparseable_error_body_witness :
    (render id "2025-08-17"
        (loadAllData (settledAqi 1 (.response true (.ok sampleAqiBody)))
          (settledStatus 2 (.response false
            (.error "Unexpected token < in JSON at position 0")))) =
      RenderedView.errorView "Unexpected token < in JSON at position 0" ∧
     (loadAllData (settledAqi 1 (.response true (.ok sampleAqiBody)))
        (settledStatus 2 (.response false
          (.error "Unexpected token < in JSON at position 0")))).forecast = none) ∧
    (render id "2025-08-17"
        (loadAllData (settledAqi 1 (.response false
            (.error "Unexpected token < in JSON at position 0")))
          (settledStatus 2 (.response true (.ok sampleStatusBody)))) =
      RenderedView.errorView "Unexpected token < in JSON at position 0" ∧
     (loadAllData (settledAqi 1 (.response false
          (.error "Unexpected token < in JSON at position 0")))
        (settledStatus 2 (.response true (.ok sampleStatusBody)))).forecast = none) :=
  unparseable_error_body_propagates_message id "2025-08-17" 1 2 sampleAqiBody
    sampleStatusBody "Unexpected token < in JSON at position 0" (by decide)

/-- C4: whenever either request fails — transport error, non-success HTTP
status, or malformed JSON, i.e. whenever the joined load rejects with some
(nonempty) message — the whole load aborts: the final state renders only
the error view, and none of `todayAqi`, `forecast`, `lastUpdated` is
populated from the endpoint that did succeed. -/
theorem any_failure_aborts_whole_load (fmt : String → String) (cd : String)
    (p : Settled AqiBody) (q : Settled StatusBody) (m : String)
    (hm : m ≠ "") (h : (promiseAll2 p q).result = .error m) :
    render fmt cd (loadAllData p q) = RenderedView.errorView m ∧
    (loadAllData p q).todayAqi = none ∧
    (loadAllData p q).forecast = none ∧
    (loadAllData p q).lastUpdated = none := by
  simp [loadAllData, h, render, initialState, hm]

/-- Witness for C4: a transport failure of the forecast request while the
status request succeeds aborts the whole load with no field populated. -/
theorem any_failure_aborts_witness :
    render id "2025-08-17"
        (loadAllData (settledAqi 1 (.netFailure "Failed to fetch"))
          (settledStatus 2 (.response true (.ok sampleStatusBody)))) =
      RenderedView.errorView "Failed to fetch" ∧
    (loadAllData (settledAqi 1 (.netFailure "Failed to fetch"))
        (settledStatus 2 (.response true (.ok sampleStatusBody)))).todayAqi = none ∧
    (loadAllData (settledAqi 1 (.netFailure "Failed to fetch"))
        (settledStatus 2 (.response true (.ok sampleStatusBody)))).forecast = none ∧
    (loadAllData (settledAqi 1 (.netFailure "Failed to fetch"))
        (settledStatus 2 (.response true (.ok sampleStatusBody)))).lastUpdated = none :=
  any_failure_aborts_whole_load id "2025-08-17" _ _ "Failed to fetch" (by decide) rfl

/-- C5 counterexample: on the failure path the `catch` block sets `error`
while `loading` is still `true`: the second state of this concrete failing
run has `loading = true` and a truthy `error` simultaneously, refuting the
claim that the state never satisfies two phase conditions at once. -/
theorem loading_and_error_simultaneously_set :
    (loadTrace (settledAqi 1 (.netFailure "NetworkError when attempting to fetch resource."))
        (settledStatus 2 (.response true (.ok sampleStatusBody))))[1]? =
      some { todayAqi := none, forecast := none, loading := true,
             error := some "NetworkError when attempting to fetch resource.",
             lastUpdated := none } ∧
    truthy (some "NetworkError when attempting to fetch resource.") = true :=
  ⟨rfl, by decide⟩

/-- C5 (amended): every flag state renders exactly one of the three views —
the render guards prioritise loading over error over ready, so the output
is always exactly one of them — but on every failing run the independent
`useState` flags transiently satisfy both the loading and the error
condition: between the `catch` assignment and the `finally` clear, the
trace holds a state with `loading = true` and a truthy `error`. -/
theorem exactly_one_view_rendered_but_flags_overlap :
    (∀ (fmt : String → String) (cd : String) (s : ComponentState),
      ((render fmt cd s).isLoadingV).toNat + ((render fmt cd s).isErrorV).toNat +
        ((render fmt cd s).isReadyV).toNat = 1) ∧
    (∀ (p : Settled AqiBody) (q : Settled StatusBody) (m : String),
      m ≠ "" → (promiseAll2 p q).result = .error m →
      ∃ s, s ∈ loadTrace p q ∧ s.loading = true ∧ truthy s.error = true) := by
  constructor
  · intro fmt cd s
    cases render fmt cd s <;> rfl
  · intro p q m hm h
    refine ⟨{ initialState with error := some m }, ?_, rfl, ?_⟩
    · simp [loadTrace, h]
    · simp [truthy, hm]

/-- Witness for the amended C5 theorem: a concrete failing run whose trace
contains a state with `loading` set and a truthy `error`. -/
theorem exactly_one_view_rendered_witness :
    ∃ s, s ∈ loadTrace (settledAqi 4 (.netFailure "fetch failed"))
        (settledStatus 9 (.response true (.ok sampleStatusBody))) ∧
      s.loading = true ∧ truthy s.error = true :=
  exactly_one_view_rendered_but_flags_overlap.2 _ _ "fetch failed" (by decide) rfl

/-- C6 counterexample: a non-ok `/api/forecast` response with body
`{"detail": ""}` instantiates the claim at X = "", where it demands the
rendered message be exactly the empty string; but `detail || fallback`
discards the falsy empty string, so the view shows the fixed fallback
instead. -/
theorem empty_detail_shows_fallback_not_detail :
    render id "2025-08-17"
        (loadAllData (settledAqi 1 (.response false (.ok { detail := some "" })))
          (settledStatus 2 (.response true (.ok sampleStatusBody)))) =
      RenderedView.errorView "Failed to fetch AQI forecast." ∧
    "Failed to fetch AQI forecast." ≠ "" :=
  ⟨by decide, by decide⟩

/-- C6 (amended): for every response of `/api/forecast` with a non-success
status and a JSON body whose `detail` field holds a nonempty string X (the
status request succeeding), the view enters the error phase and the
rendered message is exactly X; for the empty string the fixed fallback is
shown instead. -/
theorem nonempty_detail_shown_verbatim (fmt : String → String) (cd : String)
    (ta ts : Nat) (t : Option TodayReading) (fc : Option (List ForecastDay))
    (X : String) (hX : X ≠ "") (sb : StatusBody) :
    render fmt cd (loadAllData (settledAqi ta (.response false (.ok ⟨t, fc, some X⟩)))
        (settledStatus ts (.response true (.ok sb)))) = RenderedView.errorView X := by
  simp [render, loadAllData, promiseAll2, settledAqi, settledStatus, fetchAqiData,
    fetchStatusData, jsOrElse, initialState, hX]

/-- Witness for the amended C6 theorem at a concrete server-supplied
`detail` message. -/
theorem nonempty_detail_shown_witness :
    render id "2025-08-17"
        (loadAllData (settledAqi 1 (.response false
            (.ok ⟨none, none, some "Model file not found."⟩)))
          (settledStatus 2 (.response true (.ok sampleStatusBody)))) =
      RenderedView.errorView "Model file not found." :=
  nonempty_detail_shown_verbatim id "2025-08-17" 1 2 none none
    "Model file not found." (by decide) sampleStatusBody

/-- C7: the optional display fields do not block rendering — with `today`
omitted from a successful forecast payload the ready view renders without
the today block; with `model_last_updated_utc` absent it renders without
the last-updated label; with both absent both are omitted — and in every
case the forecast rows render normally, in supplied order. -/
theorem optional_fields_do_not_block_render (fmt : String → String) (cd : String)
    (ta ts : Nat) (fl : List ForecastDay) (da ds : Option String)
    (u : String) (hu : u ≠ "") (t : TodayReading) :
    (render fmt cd (loadAllData (settledAqi ta (.response true (.ok ⟨none, some fl, da⟩)))
        (settledStatus ts (.response true (.ok ⟨some u, ds⟩)))) =
      RenderedView.readyView (some (fmt u)) none
        (fl.map (fun day => (day.date, toString day.predicted_aqi ++ " AQI")))) ∧
    (render fmt cd (loadAllData (settledAqi ta (.response true (.ok ⟨some t, some fl, da⟩)))
        (settledStatus ts (.response true (.ok ⟨none, ds⟩)))) =
      RenderedView.readyView none (some (t.aqi, "Today's AQI (" ++ cd ++ ")"))
        (fl.map (fun day => (day.date, toString day.predicted_aqi ++ " AQI")))) ∧
    (render fmt cd (loadAllData (settledAqi ta (.response true (.ok ⟨none, some fl, da⟩)))
        (settledStatus ts (.response true (.ok ⟨none, ds⟩)))) =
      RenderedView.readyView none none
        (fl.map (fun day => (day.date, toString day.predicted_aqi ++ " AQI")))) := by
  refine ⟨?_, rfl, rfl⟩
  simp [render, loadAllData, promiseAll2, settledAqi, settledStatus, fetchAqiData,
    fetchStatusData, renderReady, initialState, hu]

/-- Witness for C7 at the specification's worked example with the optional
fields removed one at a time. -/
theorem optional_fields_witness :
    (render id "2025-08-17"
        (loadAllData (settledAqi 1 (.response true (.ok ⟨none, some sampleForecastList, none⟩)))
          (settledStatus 2 (.response true (.ok ⟨some "2025-08-17T22:30:00Z", none⟩)))) =
      RenderedView.readyView (some "2025-08-17T22:30:00Z") none
        (sampleForecastList.map (fun day => (day.date, toString day.predicted_aqi ++ " AQI")))) ∧
    (render id "2025-08-17"
        (loadAllData (settledAqi 1 (.response true
            (.ok ⟨some ⟨142, "2025-08-17"⟩, some sampleForecastList, none⟩)))
          (settledStatus 2 (.response true (.ok ⟨none, none⟩)))) =
      RenderedView.readyView none (some ((142 : Int), "Today's AQI (2025-08-17)"))
        (sampleForecastList.map (fun day => (day.date, toString day.predicted_aqi ++ " AQI")))) ∧
    (render id "2025-08-17"
        (loadAllData (settledAqi 1 (.response true (.ok ⟨none, some sampleForecastList, none⟩)))
          (settledStatus 2 (.response true (.ok ⟨none, none⟩)))) =
      RenderedView.readyView none none
        (sampleForecastList.map (fun day => (day.date, toString day.predicted_aqi ++ " AQI")))) :=
  optional_fields_do_not_block_render id "2025-08-17" 1 2 sampleForecastList none none
    "2025-08-17T22:30:00Z" (by decide) ⟨142, "2025-08-17"⟩

/-- C8: in the ready view the today-AQI block shows the payload's numeric
`aqi`, and its label interpolates the render-time local date string; the
label is independent of the server-supplied `today.date` — rendering the
same payloads with two different `today.date` values yields identical
output. -/
theorem today_label_uses_render_time_date (fmt : String → String) (cd : String)
    (ta ts : Nat) (aqi : Int) (d₁ d₂ : String) (fc : Option (List ForecastDay))
    (da lu ds : Option String) :
    RenderedView.todayBlockOf (render fmt cd
        (loadAllData (settledAqi ta (.response true (.ok ⟨some ⟨aqi, d₁⟩, fc, da⟩)))
          (settledStatus ts (.response true (.ok ⟨lu, ds⟩))))) =
      some (aqi, "Today's AQI (" ++ cd ++ ")") ∧
    render fmt cd (loadAllData (settledAqi ta (.response true (.ok ⟨some ⟨aqi, d₁⟩, fc, da⟩)))
        (settledStatus ts (.response true (.ok ⟨lu, ds⟩)))) =
      render fmt cd (loadAllData (settledAqi ta (.response true (.ok ⟨some ⟨aqi, d₂⟩, fc, da⟩)))
        (settledStatus ts (.response true (.ok ⟨lu, ds⟩)))) :=
  ⟨rfl, rfl⟩

/-- C9: when both requests succeed but the forecast body lacks the
`forecast` field, the component still leaves the loading phase with no
error and renders the ready view with an empty forecast section — it never
enters the error phase on a missing forecast array. -/
theorem missing_forecast_field_renders_empty_list (fmt : String → String)
    (cd : String) (ta ts : Nat) (t : Option TodayReading) (da lu ds : Option String) :
    (loadAllData (settledAqi ta (.response true (.ok ⟨t, none, da⟩)))
        (settledStatus ts (.response true (.ok ⟨lu, ds⟩)))).loading = false ∧
    (loadAllData (settledAqi ta (.response true (.ok ⟨t, none, da⟩)))
        (settledStatus ts (.response true (.ok ⟨lu, ds⟩)))).error = none ∧
    RenderedView.isReadyV (render fmt cd
        (loadAllData (settledAqi ta (.response true (.ok ⟨t, none, da⟩)))
          (settledStatus ts (.response true (.ok ⟨lu, ds⟩))))) = true ∧
    RenderedView.forecastRowsOf (render fmt cd
        (loadAllData (settledAqi ta (.response true (.ok ⟨t, none, da⟩)))
          (settledStatus ts (.response true (.ok ⟨lu, ds⟩))))) = [] :=
  ⟨rfl, rfl, rfl, rfl⟩

/-- C10: a non-success response whose parsed body carries a falsy `detail` —
absent or the empty string — produces the fixed generic fallback message of
the failing fetch, for both endpoints alike. -/
theorem falsy_detail_falls_back_to_generic (fmt : String → String) (cd : String)
    (ta ts : Nat) (t : Option TodayReading) (fc : Option (List ForecastDay))
    (sb : StatusBody) (ab : AqiBody) (lu : Option String) :
    (render fmt cd (loadAllData (settledAqi ta (.response false (.ok ⟨t, fc, none⟩)))
        (settledStatus ts (.response true (.ok sb)))) =
      RenderedView.errorView "Failed to fetch AQI forecast.") ∧
    (render fmt cd (loadAllData (settledAqi ta (.response false (.ok ⟨t, fc, some ""⟩)))
        (settledStatus ts (.response true (.ok sb)))) =
      RenderedView.errorView "Failed to fetch AQI forecast.") ∧
    (render fmt cd (loadAllData (settledAqi ta (.response true (.ok ab)))
        (settledStatus ts (.response false (.ok ⟨lu, none⟩)))) =
      RenderedView.errorView "Failed to fetch API status.") ∧
    (render fmt cd (loadAllData (settledAqi ta (.response true (.ok ab)))
        (settledStatus ts (.response false (.ok ⟨lu, some ""⟩)))) =
      RenderedView.errorView "Failed to fetch API status.") := by
  refine ⟨?_, ?_, ?_, ?_⟩ <;>
    simp [render, loadAllData, promiseAll2, settledAqi, settledStatus, fetchAqiData,
      fetchStatusData, jsOrElse, initialState]

end AqiPredictor
